import Mathlib

/-!
Verification development for a small TypeScript repository containing
(a) three sum-to-n implementations (src/unnamed/part_000),
(b) a CRUD layer over two entities, Author and Product, made of a
    Prisma-style persistence gateway (ProductQueryBuilder in
    src/unnamed/part_003, author.service.ts) and thin use-case wrappers,
(c) an Express router for Author (author.service.ts, second half).

The backing store (Prisma client and schema) is not part of the sources;
it is modelled from the specification: an in-memory table per entity,
store-assigned IDs and timestamps, referential-integrity enforcement on
Product.authorID, and partial updates where an absent (undefined) field
is not written.  TypeScript `undefined`-able fields are modelled as
`Option`; JavaScript number timestamps and date values are modelled as
`Nat` / `Int`.
-/

namespace CodeChallenge

/-! ## Sum to n (src/unnamed/part_000) -/

/-- `sum_to_n_a`: the iterative implementation — a `for` loop adding
`i = 1 .. n` into `total`, modelled as a left fold over `[1, …, n]`. -/
def sum_to_n_a (n : Nat) : Nat :=
  (List.range' 1 n).foldl (fun total i => total + i) 0

/-- `sum_to_n_b`: the recursive implementation —
`if (n <= 1) return n; return n + sum_to_n_b(n - 1)`. -/
def sum_to_n_b (n : Nat) : Nat :=
  if n ≤ 1 then n else n + sum_to_n_b (n - 1)
termination_by n
decreasing_by omega

/-- `sum_to_n_c`: the closed-form implementation `(n * (n + 1)) / 2`.
Since `n * (n + 1)` is always even, JavaScript float division and `Nat`
division agree here. -/
def sum_to_n_c (n : Nat) : Nat :=
  (n * (n + 1)) / 2

/-! ## Data model (author.service.ts, product.entities.ts) -/

/-- The `Author` type of author.service.ts: exactly the five fields
`{ID, firstName, lastName, createdAt, updatedAt}` — this is both the
stored shape and the fixed projection used by every author read. -/
structure Author where
  ID : Nat
  firstName : String
  lastName : String
  createdAt : Nat
  updatedAt : Nat
deriving Repr, DecidableEq

/-- A raw `Product` row as stored in the backing store: scalar columns
plus the `authorID` foreign key (no nested author). -/
structure ProductRow where
  ID : Nat
  title : String
  isFiction : Bool
  datePublish : Int
  authorID : Nat
  createdAt : Nat
  updatedAt : Nat
deriving Repr, DecidableEq

/-- `ProductRead` of product.entities.ts: the fixed projection every
product read returns — scalar fields plus the nested `author` record
(itself the five-field `Author` projection, no product list), and no
raw `authorID` foreign key. -/
structure ProductRead where
  ID : Nat
  title : String
  isFiction : Bool
  datePublish : Int
  author : Author
  createdAt : Nat
  updatedAt : Nat
deriving Repr, DecidableEq

/-- A `Date | string` input value for `datePublish`
(`ProductCreateData` / `ProductUpdateData` in product.entities.ts). -/
inductive DateInput where
  | date (d : Int)
  | str (s : String)
deriving Repr, DecidableEq

/-- Split a character list at every dash. -/
def splitOnDash : List Char → List (List Char)
  | [] => [[]]
  | c :: cs =>
      let r := splitOnDash cs
      if c = '-' then [] :: r
      else
        match r with
        | [] => [[c]]
        | g :: gs => (c :: g) :: gs

/-- Read a decimal digit string as a number. -/
def digitsToNat (cs : List Char) : Nat :=
  cs.foldl (fun n c => n * 10 + (c.toNat - 48)) 0

/-- Modelled from the spec: the JavaScript `new Date(string)` parse of a
parseable ISO date string (an external runtime builtin), modelled as an
injective encoding of the year-month-day components into a date value.
The gateway only requires that a parseable string is normalized to a
definite date value. -/
def parseDateString (s : String) : Int :=
  match splitOnDash s.toList with
  | [y, m, d] => ((digitsToNat y) * 10000 + (digitsToNat m) * 100 + digitsToNat d : Nat)
  | _ => 0

/-- `new Date(x)` applied to a `Date | string` value: a date value is
kept, a string is parsed. -/
def normDate : DateInput → Int
  | .date d => d
  | .str s => parseDateString s

/-- `ProductCreateData` of product.entities.ts: all writable fields
required; `datePublish` accepts a date value or a date string. -/
structure ProductCreateData where
  title : String
  isFiction : Bool
  datePublish : DateInput
  authorID : Nat
deriving Repr, DecidableEq

/-- `ProductUpdateData` of product.entities.ts: every writable field
optional (`none` = absent/undefined). -/
structure ProductUpdateData where
  title : Option String
  isFiction : Option Bool
  datePublish : Option DateInput
  authorID : Option Nat
deriving Repr, DecidableEq

/-- The runtime update input of `updateAuthorById`: the handler passes
the request body through, so at runtime either name field may be absent
(`undefined`); the store does not write absent fields. -/
structure AuthorUpdateData where
  firstName : Option String
  lastName : Option String
deriving Repr, DecidableEq

/-- Errors surfaced by the backing store, per the spec's error taxonomy. -/
inductive DbError where
  | notFound
  | referentialIntegrity
deriving Repr, DecidableEq

/-- Outcome of a fallible store operation: the result value, or a
thrown `DbError`. -/
inductive DbResult (α : Type) where
  | ok (a : α)
  | error (e : DbError)
deriving Repr, DecidableEq

/-- Modelled from the spec: the backing store behind the Prisma client
(db.server.ts / prisma schema, not among the sources) — one table per
entity, counters for store-assigned IDs, and a clock for store-assigned
timestamps. -/
structure Store where
  authors : List Author
  products : List ProductRow
  nextAuthorID : Nat
  nextProductID : Nat
  now : Nat
deriving Repr, DecidableEq

/-- Look up an author row by `ID`. -/
def findAuthorRow (s : Store) (id : Nat) : Option Author :=
  s.authors.find? (fun a => a.ID == id)

/-- Look up a product row by `ID`. -/
def findProductRow (s : Store) (id : Nat) : Option ProductRow :=
  s.products.find? (fun p => p.ID == id)

/-- The gateway's fixed field selection (`selectFields` in
ProductQueryBuilder): scalar product fields plus the nested author
projected to `{ID, firstName, lastName, createdAt, updatedAt}`, joined
from the author table via `authorID`. -/
def projectProduct (s : Store) (p : ProductRow) : Option ProductRead :=
  (findAuthorRow s p.authorID).map (fun a =>
    { ID := p.ID, title := p.title, isFiction := p.isFiction,
      datePublish := p.datePublish, author := a,
      createdAt := p.createdAt, updatedAt := p.updatedAt })

/-- Modelled from the spec: `db.author.findMany` with the five-field
selection — every author row already has exactly the projected shape. -/
def dbAuthorFindMany (s : Store) : List Author :=
  s.authors

/-- Modelled from the spec: `db.author.findUnique` — the row, or `none`
when the `ID` is absent; never an error. -/
def dbAuthorFindUnique (s : Store) (id : Nat) : Option Author :=
  findAuthorRow s id

/-- Modelled from the spec: `db.author.create` — store-assigned `ID`
and timestamps; returns the created record under the projection. -/
def dbAuthorCreate (s : Store) (firstName lastName : String) : Author × Store :=
  let a : Author :=
    { ID := s.nextAuthorID, firstName := firstName, lastName := lastName,
      createdAt := s.now, updatedAt := s.now }
  (a, { s with
          authors := s.authors ++ [a]
          nextAuthorID := s.nextAuthorID + 1
          now := s.now + 1 })

/-- Modelled from the spec: `db.author.update` — fails with
`NotFoundError` when the `ID` is absent; an `undefined` field in `data`
is not written; `updatedAt` is store-assigned on every update. -/
def dbAuthorUpdate (s : Store) (id : Nat) (data : AuthorUpdateData) :
    DbResult Author × Store :=
  match findAuthorRow s id with
  | none => (.error .notFound, s)
  | some a =>
      let a' : Author :=
        { a with
            firstName := data.firstName.getD a.firstName
            lastName := data.lastName.getD a.lastName
            updatedAt := s.now }
      (.ok a',
       { s with
           authors := s.authors.map (fun b => if b.ID == id then a' else b)
           now := s.now + 1 })

/-- Modelled from the spec: `db.author.delete` — `NotFoundError` when
the `ID` is absent; `ReferentialIntegrityError` (no cascade) when a
product still references the author. -/
def dbAuthorDelete (s : Store) (id : Nat) : DbResult Author × Store :=
  match findAuthorRow s id with
  | none => (.error .notFound, s)
  | some a =>
      if s.products.any (fun p => p.authorID == id) then
        (.error .referentialIntegrity, s)
      else
        (.ok a, { s with
                    authors := s.authors.filter (fun b => b.ID != id)
                    now := s.now + 1 })

/-- Modelled from the spec: `db.product.findMany` with `selectFields`. -/
def dbProductFindMany (s : Store) : List ProductRead :=
  s.products.filterMap (projectProduct s)

/-- Modelled from the spec: `db.product.findUnique` with `selectFields`
— the projected record, or `none` when the `ID` is absent; no error. -/
def dbProductFindUnique (s : Store) (id : Nat) : Option ProductRead :=
  (findProductRow s id).bind (projectProduct s)

/-- Modelled from the spec: `db.product.create` — the store enforces
referential integrity of `authorID` (`ReferentialIntegrityError` and no
insertion when the author is absent); `ID` and timestamps are
store-assigned; returns the created record under `selectFields`. -/
def dbProductCreate (s : Store) (title : String) (isFiction : Bool)
    (datePublish : Int) (authorID : Nat) : DbResult ProductRead × Store :=
  match findAuthorRow s authorID with
  | none => (.error .referentialIntegrity, s)
  | some a =>
      let row : ProductRow :=
        { ID := s.nextProductID, title := title, isFiction := isFiction,
          datePublish := datePublish, authorID := authorID,
          createdAt := s.now, updatedAt := s.now }
      (.ok { ID := row.ID, title := row.title, isFiction := row.isFiction,
             datePublish := row.datePublish, author := a,
             createdAt := row.createdAt, updatedAt := row.updatedAt },
       { s with
           products := s.products ++ [row]
           nextProductID := s.nextProductID + 1
           now := s.now + 1 })

/-- The partial column assignment a product update hands to the store
(the dynamically built `updateData` object): `none` = field absent. -/
structure ProductUpdatePayload where
  title : Option String
  isFiction : Option Bool
  datePublish : Option Int
  authorID : Option Nat
deriving Repr, DecidableEq

/-- Modelled from the spec: `db.product.update` — `NotFoundError` when
the `ID` is absent; absent fields are not written; the store enforces
referential integrity of the (possibly updated) `authorID` when joining
the nested author; `updatedAt` is store-assigned; returns the updated
record under `selectFields`. On any failure the store is unchanged. -/
def dbProductUpdate (s : Store) (id : Nat) (u : ProductUpdatePayload) :
    DbResult ProductRead × Store :=
  match findProductRow s id with
  | none => (.error .notFound, s)
  | some p =>
      let p' : ProductRow :=
        { p with
            title := u.title.getD p.title
            isFiction := u.isFiction.getD p.isFiction
            datePublish := u.datePublish.getD p.datePublish
            authorID := u.authorID.getD p.authorID
            updatedAt := s.now }
      match findAuthorRow s p'.authorID with
      | none => (.error .referentialIntegrity, s)
      | some a =>
          (.ok { ID := p'.ID, title := p'.title, isFiction := p'.isFiction,
                 datePublish := p'.datePublish, author := a,
                 createdAt := p'.createdAt, updatedAt := p'.updatedAt },
           { s with
               products := s.products.map (fun q => if q.ID == id then p' else q)
               now := s.now + 1 })

/-- Modelled from the spec: `db.product.delete` — `NotFoundError` when
the `ID` is absent, otherwise the row is removed. -/
def dbProductDelete (s : Store) (id : Nat) : DbResult ProductRow × Store :=
  match findProductRow s id with
  | none => (.error .notFound, s)
  | some p =>
      (.ok p, { s with
                  products := s.products.filter (fun q => q.ID != id)
                  now := s.now + 1 })

/-! ## Author service (author.service.ts) -/

/-- `getAuthors`: `db.author.findMany` under the five-field selection. -/
def getAuthors (s : Store) : List Author :=
  dbAuthorFindMany s

/-- `getAuthorById`: `db.author.findUnique` under the selection. -/
def getAuthorById (s : Store) (ID : Nat) : Option Author :=
  dbAuthorFindUnique s ID

/-- `createAuthor`: destructures `firstName`/`lastName` and delegates to
`db.author.create`. -/
def createAuthor (s : Store) (firstName lastName : String) : Author × Store :=
  dbAuthorCreate s firstName lastName

/-- `updateAuthorById`: destructures `firstName`/`lastName` from the
input object and delegates to `db.author.update`; at runtime either
field may be absent and the store then leaves it unchanged. -/
def updateAuthorById (s : Store) (ID : Nat) (author : AuthorUpdateData) :
    DbResult Author × Store :=
  dbAuthorUpdate s ID { firstName := author.firstName, lastName := author.lastName }

/-- `deleteAuthorById`: delegates to `db.author.delete`. -/
def deleteAuthorById (s : Store) (ID : Nat) : DbResult Author × Store :=
  dbAuthorDelete s ID

/-! ## Product gateway (ProductQueryBuilder, src/unnamed/part_003) -/

namespace ProductQueryBuilder

/-- `findAll`: `db.product.findMany` with `selectFields`. -/
def findAll (s : Store) : List ProductRead :=
  dbProductFindMany s

/-- `findById`: `db.product.findUnique` with `selectFields`. -/
def findById (s : Store) (ID : Nat) : Option ProductRead :=
  dbProductFindUnique s ID

/-- `create`: normalizes `datePublish` with `new Date(...)` and passes
the four writable fields to `db.product.create` with `selectFields`. -/
def create (s : Store) (data : ProductCreateData) : DbResult ProductRead × Store :=
  let parseDate : Int := normDate data.datePublish
  dbProductCreate s data.title data.isFiction parseDate data.authorID

/-- `update`: builds `updateData` with only the fields present in the
input (`!== undefined` checks), normalizing a present `datePublish`
with `new Date(...)`, and passes it to `db.product.update` with
`selectFields`. -/
def update (s : Store) (ID : Nat) (data : ProductUpdateData) :
    DbResult ProductRead × Store :=
  dbProductUpdate s ID
    { title := data.title, isFiction := data.isFiction,
      datePublish := data.datePublish.map normDate, authorID := data.authorID }

/-- `delete`: `db.product.delete` (no selection). -/
def delete (s : Store) (ID : Nat) : DbResult ProductRow × Store :=
  dbProductDelete s ID

end ProductQueryBuilder

/-! ## Product use-case wrappers (src/problem_5/src/product/usecases) -/

/-- `GetProductsUsecase.execute`: returns `this.builder.findAll()`. -/
def GetProductsUsecase.execute (s : Store) : List ProductRead :=
  ProductQueryBuilder.findAll s

/-- `GetProductByIdUsecase.execute`: returns `this.builder.findById(ID)`. -/
def GetProductByIdUsecase.execute (s : Store) (ID : Nat) : Option ProductRead :=
  ProductQueryBuilder.findById s ID

/-- `CreateProductUsecase.execute`: returns `this.builder.create(data)`. -/
def CreateProductUsecase.execute (s : Store) (data : ProductCreateData) :
    DbResult ProductRead × Store :=
  ProductQueryBuilder.create s data

/-- `UpdateProductByIdUsecase.execute`: returns
`this.builder.update(ID, data)`. -/
def UpdateProductByIdUsecase.execute (s : Store) (ID : Nat) (data : ProductUpdateData) :
    DbResult ProductRead × Store :=
  ProductQueryBuilder.update s ID data

/-- `DeleteProductByIdUsecase.execute`: `await this.builder.delete(ID)`
with no `return` — the gateway's deleted-record result is awaited (so
its store effect happens and a thrown error propagates) and then
discarded; the wrapper's return type is `Promise<void>`. -/
def DeleteProductByIdUsecase.execute (s : Store) (ID : Nat) :
    DbResult Unit × Store :=
  match ProductQueryBuilder.delete s ID with
  | (.ok _, s') => (.ok (), s')
  | (.error e, s') => (.error e, s')

/-- Drop the value of a successful store result, keeping failures. -/
def discardValue {α : Type} : DbResult α → DbResult Unit
  | .ok _ => .ok ()
  | .error e => .error e

/-! ## Author router PUT handler (author.service.ts, router half) -/

/-- A JavaScript runtime value, as far as truthiness is concerned. -/
inductive JsVal where
  | vbool (b : Bool)
  | vfunc
  | vundef
deriving Repr, DecidableEq

/-- JavaScript truthiness: a function object is truthy, `undefined` is
falsy, a boolean is itself. -/
def jsTruthy : JsVal → Bool
  | .vbool b => b
  | .vfunc => true
  | .vundef => false

/-- The `validationResult(request)` object: the list of collected
validation errors. -/
structure ValidationErrors where
  errorList : List String
deriving Repr, DecidableEq

/-- The runtime value of the property access `errors.isEmpty` (no call
parentheses): a method reference, i.e. a function object — regardless
of whether any validation errors were collected. -/
def isEmptyMethodRef (_ : ValidationErrors) : JsVal :=
  JsVal.vfunc

/-- Responses the Author PUT handler can produce. -/
inductive PutResponse where
  | badRequest (errorList : List String)
  | created (a : Author)
  | serverError
deriving Repr, DecidableEq

/-- The `authorRouter.put('/:id', …)` handler body: it tests
`if (!errors.isEmpty)` — negating the method reference itself, not the
result of calling it — and otherwise calls
`AuthorService.updateAuthorById(ID, request.body)`, answering 201 on
success and 500 on any thrown error. -/
def authorRouterPut (s : Store) (errors : ValidationErrors) (ID : Nat)
    (body : AuthorUpdateData) : PutResponse × Store :=
  if !(jsTruthy (isEmptyMethodRef errors)) then
    (.badRequest errors.errorList, s)
  else
    match updateAuthorById s ID body with
    | (.ok a, s') => (.created a, s')
    | (.error _, s') => (.serverError, s')

/-! ## Concrete sample data (for evaluating the theorems) -/

/-- A sample stored author. -/
def sampleAuthor : Author :=
  { ID := 1, firstName := "Jane", lastName := "Doe", createdAt := 0, updatedAt := 0 }

/-- A sample stored product row referencing `sampleAuthor`. -/
def sampleProduct : ProductRow :=
  { ID := 1, title := "Book", isFiction := true, datePublish := 20240101,
    authorID := 1, createdAt := 1, updatedAt := 1 }

/-- A sample store holding one author and one product. -/
def sampleStore : Store :=
  { authors := [sampleAuthor], products := [sampleProduct],
    nextAuthorID := 2, nextProductID := 2, now := 2 }

/-- A variant of the sample store whose product 1 has another title. -/
def sampleStoreAlt : Store :=
  { sampleStore with products := [{ sampleProduct with title := "Other" }] }

/-! ## Theorems -/

/-- Helper: the iterative sum satisfies the step equation. -/
theorem sum_to_n_a_succ (n : Nat) : sum_to_n_a (n + 1) = sum_to_n_a n + (n + 1) := by
  unfold sum_to_n_a
  rw [List.range'_concat, List.foldl_append]
  simp [Nat.add_comm]

/-- Helper: the recursive sum satisfies the step equation. -/
theorem sum_to_n_b_succ (n : Nat) : sum_to_n_b (n + 1) = (n + 1) + sum_to_n_b n := by
  rw [sum_to_n_b]
  by_cases h : n + 1 ≤ 1
  · have hn : n = 0 := by omega
    subst hn
    simp [sum_to_n_b]
  · simp [h]

/-- C8: `sum_to_n_a`, `sum_to_n_b` and `sum_to_n_c` all compute the
triangular number: for every natural `n` they agree with
`1 + 2 + … + n = n * (n + 1) / 2`. -/
theorem sum_to_n_all_equal (n : Nat) :
    sum_to_n_a n = n * (n + 1) / 2 ∧ sum_to_n_b n = n * (n + 1) / 2 ∧
      sum_to_n_c n = n * (n + 1) / 2 := by
  have ha : ∀ m : Nat, sum_to_n_a m * 2 = m * (m + 1) := by
    intro m
    induction m with
    | zero => simp [sum_to_n_a]
    | succ k ih =>
        rw [sum_to_n_a_succ, Nat.add_mul, ih]
        ring
  have hb : ∀ m : Nat, sum_to_n_b m * 2 = m * (m + 1) := by
    intro m
    induction m with
    | zero => simp [sum_to_n_b]
    | succ k ih =>
        rw [sum_to_n_b_succ, Nat.add_mul, ih]
        ring
  have div2 : ∀ a m : Nat, a * 2 = m * (m + 1) → a = m * (m + 1) / 2 := by
    intro a m h
    omega
  exact ⟨div2 _ _ (ha n), div2 _ _ (hb n), rfl⟩

/-- C9 (amended): the create, update-by-id, get-by-id and get-all
wrappers return exactly the corresponding gateway output on the same
input, unmodified; the delete wrapper runs the gateway delete,
propagating its store effect and its error, but discards the returned
record and yields void (`Promise<void>` in the source). -/
theorem usecases_return_gateway_outputs (s : Store) (ID : Nat)
    (c : ProductCreateData) (u : ProductUpdateData) :
    CreateProductUsecase.execute s c = ProductQueryBuilder.create s c ∧
      UpdateProductByIdUsecase.execute s ID u = ProductQueryBuilder.update s ID u ∧
      GetProductByIdUsecase.execute s ID = ProductQueryBuilder.findById s ID ∧
      GetProductsUsecase.execute s = ProductQueryBuilder.findAll s ∧
      DeleteProductByIdUsecase.execute s ID =
        (discardValue (ProductQueryBuilder.delete s ID).1,
         (ProductQueryBuilder.delete s ID).2) := by
  refine ⟨rfl, rfl, rfl, rfl, ?_⟩
  unfold DeleteProductByIdUsecase.execute
  rcases hd : ProductQueryBuilder.delete s ID with ⟨r, s'⟩
  cases r <;> rfl

/-- C9 as literally stated is false for the delete wrapper: in the
sample store the gateway's `delete` returns the deleted record itself,
while `DeleteProductByIdUsecase.execute` returns void — two stores
whose gateway delete outputs differ give identical wrapper outputs, so
the wrapper does not return the gateway's output unmodified. -/
theorem delete_usecase_discards_gateway_output :
    (ProductQueryBuilder.delete sampleStore 1).1 = .ok sampleProduct ∧
      (DeleteProductByIdUsecase.execute sampleStore 1).1 = .ok () ∧
      (ProductQueryBuilder.delete sampleStore 1).1 ≠
        (ProductQueryBuilder.delete sampleStoreAlt 1).1 ∧
      (DeleteProductByIdUsecase.execute sampleStore 1).1 =
        (DeleteProductByIdUsecase.execute sampleStoreAlt 1).1 := by
  decide

/-- C10: in the Author PUT handler the 400 branch is unreachable — the
code tests the method reference `errors.isEmpty` (a function object,
always truthy) instead of calling it, so the negated test is always
false and every request, valid or not, proceeds to `updateAuthorById`. -/
theorem authorPut_validation_branch_unreachable (s : Store)
    (errors : ValidationErrors) (ID : Nat) (body : AuthorUpdateData) :
    (authorRouterPut s errors ID body =
      match updateAuthorById s ID body with
      | (.ok a, s') => (.created a, s')
      | (.error _, s') => (.serverError, s')) ∧
      ∀ el s', authorRouterPut s errors ID body ≠ (.badRequest el, s') := by
  refine ⟨rfl, ?_⟩
  intro el s' h
  rw [show authorRouterPut s errors ID body =
        (match updateAuthorById s ID body with
         | (.ok a, s2) => (.created a, s2)
         | (.error _, s2) => (.serverError, s2)) from rfl] at h
  rcases hu : updateAuthorById s ID body with ⟨r, s2⟩
  rw [hu] at h
  cases r <;> simp at h

/-- C5: for an `id` that is not in the store, `findById` returns
not-found (`none`, never an error), while `update` and `delete` fail
with `NotFoundError` and leave the store unchanged — for both the
Product gateway and the Author service. -/
theorem missing_id_not_found (s : Store) (pid aid : Nat)
    (u : ProductUpdateData) (au : AuthorUpdateData)
    (hp : findProductRow s pid = none) (ha : findAuthorRow s aid = none) :
    ProductQueryBuilder.findById s pid = none ∧
      ProductQueryBuilder.update s pid u = (.error .notFound, s) ∧
      ProductQueryBuilder.delete s pid = (.error .notFound, s) ∧
      getAuthorById s aid = none ∧
      updateAuthorById s aid au = (.error .notFound, s) ∧
      deleteAuthorById s aid = (.error .notFound, s) := by
  refine ⟨?_, ?_, ?_, ?_, ?_, ?_⟩
  · simp [ProductQueryBuilder.findById, dbProductFindUnique, hp]
  · simp [ProductQueryBuilder.update, dbProductUpdate, hp]
  · simp [ProductQueryBuilder.delete, dbProductDelete, hp]
  · simp [getAuthorById, dbAuthorFindUnique, ha]
  · simp [updateAuthorById, dbAuthorUpdate, ha]
  · simp [deleteAuthorById, dbAuthorDelete, ha]

/-- Evaluation of C5 on the sample store at the absent id 99. -/
theorem missing_id_not_found_witness :
    (findProductRow sampleStore 99 = none ∧ findAuthorRow sampleStore 99 = none) ∧
      ProductQueryBuilder.findById sampleStore 99 = none ∧
      ProductQueryBuilder.update sampleStore 99 ⟨none, none, none, none⟩ =
        (.error .notFound, sampleStore) ∧
      ProductQueryBuilder.delete sampleStore 99 = (.error .notFound, sampleStore) ∧
      getAuthorById sampleStore 99 = none ∧
      updateAuthorById sampleStore 99 ⟨none, none⟩ = (.error .notFound, sampleStore) ∧
      deleteAuthorById sampleStore 99 = (.error .notFound, sampleStore) :=
  ⟨⟨rfl, rfl⟩, missing_id_not_found sampleStore 99 99 ⟨none, none, none, none⟩
    ⟨none, none⟩ rfl rfl⟩

/-- C3: a Product create whose `authorID` has no matching Author fails
with `ReferentialIntegrityError` and persists nothing, and a Product
update that sets `authorID` to a non-existent Author fails with
`ReferentialIntegrityError` and leaves the targeted record (and the
whole store) unchanged. -/
theorem product_fk_integrity (s : Store) (c : ProductCreateData)
    (pid : Nat) (u : ProductUpdateData) (p : ProductRow) (aid : Nat) :
    (findAuthorRow s c.authorID = none →
      ProductQueryBuilder.create s c = (.error .referentialIntegrity, s)) ∧
      (findProductRow s pid = some p → u.authorID = some aid →
        findAuthorRow s aid = none →
        ProductQueryBuilder.update s pid u = (.error .referentialIntegrity, s)) := by
  constructor
  · intro hc
    simp [ProductQueryBuilder.create, dbProductCreate, hc]
  · intro hp hu ha
    simp [ProductQueryBuilder.update, dbProductUpdate, hp, hu, ha]

/-- Evaluation of C3 on the sample store with the dangling author id 99. -/
theorem product_fk_integrity_witness :
    (findAuthorRow sampleStore 99 = none ∧
      findProductRow sampleStore 1 = some sampleProduct) ∧
      ProductQueryBuilder.create sampleStore
          ⟨"Ghost", false, .date 7, 99⟩ = (.error .referentialIntegrity, sampleStore) ∧
      ProductQueryBuilder.update sampleStore 1
          ⟨none, none, none, some 99⟩ = (.error .referentialIntegrity, sampleStore) :=
  ⟨⟨rfl, rfl⟩,
    (product_fk_integrity sampleStore ⟨"Ghost", false, .date 7, 99⟩ 1
      ⟨none, none, none, some 99⟩ sampleProduct 99).1 rfl,
    (product_fk_integrity sampleStore ⟨"Ghost", false, .date 7, 99⟩ 1
      ⟨none, none, none, some 99⟩ sampleProduct 99).2 rfl rfl rfl⟩

/-- C4: deleting an Author that still has a referencing Product fails
with `ReferentialIntegrityError` and leaves the whole store — the
Author and all of its Products — unchanged; moreover no author delete
ever touches the product table (no cascade). -/
theorem author_delete_no_cascade (s : Store) (aid : Nat) (a : Author)
    (ha : findAuthorRow s aid = some a)
    (hp : s.products.any (fun p => p.authorID == aid) = true) :
    deleteAuthorById s aid = (.error .referentialIntegrity, s) ∧
      ∀ s2 i, ((deleteAuthorById s2 i).2).products = s2.products := by
  constructor
  · simp [deleteAuthorById, dbAuthorDelete, ha, hp]
  · intro s2 i
    unfold deleteAuthorById dbAuthorDelete
    cases findAuthorRow s2 i <;> simp
    split <;> simp

/-- Evaluation of C4 on the sample store: author 1 is referenced by
product 1 and cannot be deleted. -/
theorem author_delete_no_cascade_witness :
    (findAuthorRow sampleStore 1 = some sampleAuthor ∧
      sampleStore.products.any (fun p => p.authorID == 1) = true) ∧
      deleteAuthorById sampleStore 1 = (.error .referentialIntegrity, sampleStore) ∧
      ((deleteAuthorById sampleStore 1).2).products = sampleStore.products :=
  ⟨⟨rfl, rfl⟩,
    (author_delete_no_cascade sampleStore 1 sampleAuthor rfl rfl).1,
    (author_delete_no_cascade sampleStore 1 sampleAuthor rfl rfl).2 sampleStore 1⟩

/-- C1: for both entities, an update applies exactly the fields present
in the input and leaves every absent writable field at its prior stored
value (`getD` semantics: present fields overwrite, absent fields keep
the old value), with `ID` and `createdAt` untouched — the same
partial-update shape for Author as for Product. -/
theorem update_applies_only_present_fields (s : Store) (pid : Nat)
    (u : ProductUpdateData) (p : ProductRow) (a : Author)
    (aid : Nat) (au : AuthorUpdateData) (b : Author) :
    (findProductRow s pid = some p →
      findAuthorRow s (u.authorID.getD p.authorID) = some a →
      ProductQueryBuilder.update s pid u =
        (.ok { ID := p.ID, title := u.title.getD p.title,
               isFiction := u.isFiction.getD p.isFiction,
               datePublish := (u.datePublish.map normDate).getD p.datePublish,
               author := a, createdAt := p.createdAt, updatedAt := s.now },
         { s with
             products := s.products.map (fun q =>
               if q.ID == pid then
                 { p with
                     title := u.title.getD p.title
                     isFiction := u.isFiction.getD p.isFiction
                     datePublish := (u.datePublish.map normDate).getD p.datePublish
                     authorID := u.authorID.getD p.authorID
                     updatedAt := s.now }
               else q)
             now := s.now + 1 })) ∧
      (findAuthorRow s aid = some b →
        updateAuthorById s aid au =
          (.ok { b with
                   firstName := au.firstName.getD b.firstName
                   lastName := au.lastName.getD b.lastName
                   updatedAt := s.now },
           { s with
               authors := s.authors.map (fun q =>
                 if q.ID == aid then
                   { b with
                       firstName := au.firstName.getD b.firstName
                       lastName := au.lastName.getD b.lastName
                       updatedAt := s.now }
                 else q)
               now := s.now + 1 })) := by
  constructor
  · intro hp ha
    simp [ProductQueryBuilder.update, dbProductUpdate, hp, ha]
  · intro hb
    simp [updateAuthorById, dbAuthorUpdate, hb]

/-- Evaluation of C1 on the sample store: a product update carrying
only `title` and `datePublish`, and an author update carrying only
`firstName`; absent fields keep their stored values. -/
theorem update_applies_only_present_fields_witness :
    (findProductRow sampleStore 1 = some sampleProduct ∧
      findAuthorRow sampleStore 1 = some sampleAuthor) ∧
      ProductQueryBuilder.update sampleStore 1
          ⟨some "T2", none, some (.str "2025-03-04"), none⟩ =
        (.ok { ID := 1, title := "T2", isFiction := true, datePublish := 20250304,
               author := sampleAuthor, createdAt := 1, updatedAt := 2 },
         { authors := [sampleAuthor],
           products := [{ ID := 1, title := "T2", isFiction := true,
                          datePublish := 20250304, authorID := 1,
                          createdAt := 1, updatedAt := 2 }],
           nextAuthorID := 2, nextProductID := 2, now := 3 }) ∧
      updateAuthorById sampleStore 1 ⟨some "Janet", none⟩ =
        (.ok { ID := 1, firstName := "Janet", lastName := "Doe",
               createdAt := 0, updatedAt := 2 },
         { authors := [{ ID := 1, firstName := "Janet", lastName := "Doe",
                         createdAt := 0, updatedAt := 2 }],
           products := [sampleProduct],
           nextAuthorID := 2, nextProductID := 2, now := 3 }) := by
  refine ⟨⟨rfl, rfl⟩, ?_, ?_⟩
  · exact ((update_applies_only_present_fields sampleStore 1
      ⟨some "T2", none, some (.str "2025-03-04"), none⟩ sampleProduct sampleAuthor
      1 ⟨some "Janet", none⟩ sampleAuthor).1 rfl rfl).trans (by decide)
  · exact ((update_applies_only_present_fields sampleStore 1
      ⟨some "T2", none, some (.str "2025-03-04"), none⟩ sampleProduct sampleAuthor
      1 ⟨some "Janet", none⟩ sampleAuthor).2 rfl).trans (by decide)

/-- C6: for both entities, an update with the empty partial input
leaves every stored field unchanged except `updatedAt`, and returns the
record unchanged except `updatedAt`. -/
theorem empty_update_only_updatedAt (s : Store) (pid : Nat) (p : ProductRow)
    (a : Author) (aid : Nat) (b : Author)
    (hp : findProductRow s pid = some p) (ha : findAuthorRow s p.authorID = some a)
    (hb : findAuthorRow s aid = some b) :
    ((ProductQueryBuilder.update s pid ⟨none, none, none, none⟩).2).products =
      s.products.map (fun q => if q.ID == pid then { p with updatedAt := s.now } else q) ∧
      (ProductQueryBuilder.update s pid ⟨none, none, none, none⟩).1 =
        .ok { ID := p.ID, title := p.title, isFiction := p.isFiction,
              datePublish := p.datePublish, author := a,
              createdAt := p.createdAt, updatedAt := s.now } ∧
      ((updateAuthorById s aid ⟨none, none⟩).2).authors =
        s.authors.map (fun q => if q.ID == aid then { b with updatedAt := s.now } else q) ∧
      (updateAuthorById s aid ⟨none, none⟩).1 = .ok { b with updatedAt := s.now } := by
  refine ⟨?_, ?_, ?_, ?_⟩
  · simp [ProductQueryBuilder.update, dbProductUpdate, hp, ha]
  · simp [ProductQueryBuilder.update, dbProductUpdate, hp, ha]
  · simp [updateAuthorById, dbAuthorUpdate, hb]
  · simp [updateAuthorById, dbAuthorUpdate, hb]

/-- Evaluation of C6 on the sample store: empty updates on product 1
and author 1 bump only `updatedAt`. -/
theorem empty_update_only_updatedAt_witness :
    (findProductRow sampleStore 1 = some sampleProduct ∧
      findAuthorRow sampleStore 1 = some sampleAuthor) ∧
      ((ProductQueryBuilder.update sampleStore 1 ⟨none, none, none, none⟩).2).products =
        [{ sampleProduct with updatedAt := 2 }] ∧
      ((updateAuthorById sampleStore 1 ⟨none, none⟩).2).authors =
        [{ sampleAuthor with updatedAt := 2 }] :=
  ⟨⟨rfl, rfl⟩,
    (empty_update_only_updatedAt sampleStore 1 sampleProduct sampleAuthor
      1 sampleAuthor rfl rfl rfl).1,
    (empty_update_only_updatedAt sampleStore 1 sampleProduct sampleAuthor
      1 sampleAuthor rfl rfl rfl).2.2.1⟩

/-- A returned product record is an application of the gateway's fixed
field selection to a stored row: it arises by projecting some row of
the product table, with the nested author joined from the author table
(so it carries exactly the five projected author fields and is never a
raw foreign-key-only row). -/
def inProjection (s : Store) (r : ProductRead) : Prop :=
  ∃ row ∈ s.products, projectProduct s row = some r

/-- C2: every product record returned by `findAll`, `findById`,
`create` and `update` satisfies `inProjection` of the (resulting)
store: the same fixed projection is applied uniformly to all four
operations' results. -/
theorem reads_under_fixed_projection (s : Store) (pid : Nat)
    (c : ProductCreateData) (u : ProductUpdateData)
    (r1 r2 r3 : ProductRead) (s2 s3 : Store) :
    (∀ x ∈ ProductQueryBuilder.findAll s, inProjection s x) ∧
      (ProductQueryBuilder.findById s pid = some r1 → inProjection s r1) ∧
      (ProductQueryBuilder.create s c = (.ok r2, s2) → inProjection s2 r2) ∧
      (ProductQueryBuilder.update s pid u = (.ok r3, s3) → inProjection s3 r3) := by
  refine ⟨?_, ?_, ?_, ?_⟩
  · intro x hx
    simp only [ProductQueryBuilder.findAll, dbProductFindMany, List.mem_filterMap] at hx
    obtain ⟨row, hrow, hproj⟩ := hx
    exact ⟨row, hrow, hproj⟩
  · intro h
    simp only [ProductQueryBuilder.findById, dbProductFindUnique,
      Option.bind_eq_some] at h
    obtain ⟨row, hfind, hproj⟩ := h
    exact ⟨row, List.mem_of_find?_eq_some hfind, hproj⟩
  · intro h
    cases ha : findAuthorRow s c.authorID with
    | none =>
        simp [ProductQueryBuilder.create, dbProductCreate, ha] at h
    | some a =>
        simp only [ProductQueryBuilder.create, dbProductCreate, ha,
          Prod.mk.injEq, DbResult.ok.injEq] at h
        obtain ⟨hr, hs⟩ := h
        subst hr
        subst hs
        refine ⟨{ ID := s.nextProductID, title := c.title, isFiction := c.isFiction,
                  datePublish := normDate c.datePublish, authorID := c.authorID,
                  createdAt := s.now, updatedAt := s.now }, ?_, ?_⟩
        · simp
        · simp [projectProduct, findAuthorRow] at ha ⊢
          simp [ha]
  · intro h
    cases hp : findProductRow s pid with
    | none =>
        simp [ProductQueryBuilder.update, dbProductUpdate, hp] at h
    | some p =>
        cases ha : findAuthorRow s (u.authorID.getD p.authorID) with
        | none =>
            simp [ProductQueryBuilder.update, dbProductUpdate, hp, ha] at h
        | some a =>
            simp only [ProductQueryBuilder.update, dbProductUpdate, hp, ha,
              Prod.mk.injEq, DbResult.ok.injEq] at h
            obtain ⟨hr, hs⟩ := h
            subst hr
            subst hs
            refine ⟨{ p with
                        title := u.title.getD p.title
                        isFiction := u.isFiction.getD p.isFiction
                        datePublish := (u.datePublish.map normDate).getD p.datePublish
                        authorID := u.authorID.getD p.authorID
                        updatedAt := s.now }, ?_, ?_⟩
            · simp only [List.mem_map]
              have hp' : s.products.find? (fun q => q.ID == pid) = some p := hp
              refine ⟨p, List.mem_of_find?_eq_some hp', ?_⟩
              have hpid := List.find?_some hp'
              simp only at hpid
              simp [hpid]
            · simp [projectProduct, findAuthorRow] at ha ⊢
              simp [ha]

/-- The projection of the sample product as returned by reads. -/
def sampleRead : ProductRead :=
  { ID := 1, title := "Book", isFiction := true, datePublish := 20240101,
    author := sampleAuthor, createdAt := 1, updatedAt := 1 }

/-- The record returned by creating `{"New", false, "2024-01-01", 1}`
in the sample store. -/
def sampleCreatedRead : ProductRead :=
  { ID := 2, title := "New", isFiction := false, datePublish := 20240101,
    author := sampleAuthor, createdAt := 2, updatedAt := 2 }

/-- The store after that sample create. -/
def sampleCreatedStore : Store :=
  { authors := [sampleAuthor],
    products := [sampleProduct,
      { ID := 2, title := "New", isFiction := false, datePublish := 20240101,
        authorID := 1, createdAt := 2, updatedAt := 2 }],
    nextAuthorID := 2, nextProductID := 3, now := 3 }

/-- The record returned by updating product 1 with only a new title. -/
def sampleUpdatedRead : ProductRead :=
  { ID := 1, title := "T2", isFiction := true, datePublish := 20240101,
    author := sampleAuthor, createdAt := 1, updatedAt := 2 }

/-- The store after that sample update. -/
def sampleUpdatedStore : Store :=
  { authors := [sampleAuthor],
    products := [{ sampleProduct with title := "T2", updatedAt := 2 }],
    nextAuthorID := 2, nextProductID := 2, now := 3 }

/-- Evaluation of C2 on the sample store: find-by-id, create and update
results all lie under the fixed projection of the resulting store. -/
theorem reads_under_fixed_projection_witness :
    (ProductQueryBuilder.findById sampleStore 1 = some sampleRead ∧
      ProductQueryBuilder.create sampleStore ⟨"New", false, .str "2024-01-01", 1⟩ =
        (.ok sampleCreatedRead, sampleCreatedStore) ∧
      ProductQueryBuilder.update sampleStore 1 ⟨some "T2", none, none, none⟩ =
        (.ok sampleUpdatedRead, sampleUpdatedStore)) ∧
      (∀ x ∈ ProductQueryBuilder.findAll sampleStore, inProjection sampleStore x) ∧
      inProjection sampleStore sampleRead ∧
      inProjection sampleCreatedStore sampleCreatedRead ∧
      inProjection sampleUpdatedStore sampleUpdatedRead := by
  have h := reads_under_fixed_projection sampleStore 1
    ⟨"New", false, .str "2024-01-01", 1⟩ ⟨some "T2", none, none, none⟩
    sampleRead sampleCreatedRead sampleUpdatedRead
    sampleCreatedStore sampleUpdatedStore
  exact ⟨⟨by decide, by decide, by decide⟩, h.1, h.2.1 (by decide),
    h.2.2.1 (by decide), h.2.2.2 (by decide)⟩

/-- C7: a Product create or update whose `datePublish` is given as a
date string stores the parsed date value, not the string: the returned
record's `datePublish` is `parseDateString` of the input, and reading
the created product back yields the same parsed value. -/
theorem datePublish_normalized_roundtrip (s : Store) (c : ProductCreateData)
    (str1 : String) (a : Author) (pid : Nat) (u : ProductUpdateData)
    (p : ProductRow) (str2 : String) :
    (c.datePublish = .str str1 → findAuthorRow s c.authorID = some a →
      findProductRow s s.nextProductID = none →
      ∃ r s2, ProductQueryBuilder.create s c = (.ok r, s2) ∧
        r.datePublish = parseDateString str1 ∧
        ProductQueryBuilder.findById s2 s.nextProductID = some r) ∧
      (findProductRow s pid = some p → u.datePublish = some (.str str2) →
        findAuthorRow s (u.authorID.getD p.authorID) = some a →
        ∃ r2 s3, ProductQueryBuilder.update s pid u = (.ok r2, s3) ∧
          r2.datePublish = parseDateString str2) := by
  constructor
  · intro hd ha hfresh
    refine ⟨{ ID := s.nextProductID, title := c.title, isFiction := c.isFiction,
              datePublish := normDate c.datePublish, author := a,
              createdAt := s.now, updatedAt := s.now },
            { s with
                products := s.products ++
                  [{ ID := s.nextProductID, title := c.title, isFiction := c.isFiction,
                     datePublish := normDate c.datePublish, authorID := c.authorID,
                     createdAt := s.now, updatedAt := s.now }]
                nextProductID := s.nextProductID + 1
                now := s.now + 1 }, ?_, ?_, ?_⟩
    · simp only [ProductQueryBuilder.create, dbProductCreate, ha]
    · simp [hd, normDate]
    · have hfresh' : s.products.find? (fun q => q.ID == s.nextProductID) = none := hfresh
      simp only [ProductQueryBuilder.findById, dbProductFindUnique, findProductRow,
        List.find?_append, hfresh', Option.none_or]
      simp [projectProduct, findAuthorRow] at ha ⊢
      simp [ha]
  · intro hp hu ha
    refine ⟨{ ID := p.ID, title := u.title.getD p.title,
              isFiction := u.isFiction.getD p.isFiction,
              datePublish := (u.datePublish.map normDate).getD p.datePublish,
              author := a, createdAt := p.createdAt, updatedAt := s.now },
            { s with
                products := s.products.map (fun q =>
                  if q.ID == pid then
                    { p with
                        title := u.title.getD p.title
                        isFiction := u.isFiction.getD p.isFiction
                        datePublish := (u.datePublish.map normDate).getD p.datePublish
                        authorID := u.authorID.getD p.authorID
                        updatedAt := s.now }
                  else q)
                now := s.now + 1 }, ?_, ?_⟩
    · simp only [ProductQueryBuilder.update, dbProductUpdate, hp, ha]
    · simp [hu, normDate]

/-- Evaluation of C7 on the sample store: creating with the date string
"2024-05-06" stores and reads back the parsed value 20240506, and
updating product 1 with the date string "2025-07-08" returns 20250708. -/
theorem datePublish_normalized_roundtrip_witness :
    ((⟨"New", false, .str "2024-05-06", 1⟩ : ProductCreateData).datePublish =
        .str "2024-05-06" ∧
      findAuthorRow sampleStore 1 = some sampleAuthor ∧
      findProductRow sampleStore 2 = none ∧
      findProductRow sampleStore 1 = some sampleProduct) ∧
      (∃ r s2, ProductQueryBuilder.create sampleStore
          ⟨"New", false, .str "2024-05-06", 1⟩ = (.ok r, s2) ∧
        r.datePublish = parseDateString "2024-05-06" ∧
        ProductQueryBuilder.findById s2 2 = some r) ∧
      ∃ r2 s3, ProductQueryBuilder.update sampleStore 1
          ⟨none, none, some (.str "2025-07-08"), none⟩ = (.ok r2, s3) ∧
        r2.datePublish = parseDateString "2025-07-08" := by
  have h := datePublish_normalized_roundtrip sampleStore
    ⟨"New", false, .str "2024-05-06", 1⟩ "2024-05-06" sampleAuthor 1
    ⟨none, none, some (.str "2025-07-08"), none⟩ sampleProduct "2025-07-08"
  exact ⟨⟨rfl, rfl, rfl, rfl⟩, h.1 rfl rfl rfl, h.2 rfl rfl rfl⟩

/-- Evaluation of C10 on the sample store: even with a non-empty
validation error list the PUT handler does not answer 400 and proceeds
to the update. -/
theorem authorPut_validation_branch_unreachable_witness :
    authorRouterPut sampleStore ⟨["Invalid value"]⟩ 1 ⟨some "Janet", none⟩ ≠
      (.badRequest ["Invalid value"], sampleStore) ∧
      authorRouterPut sampleStore ⟨["Invalid value"]⟩ 1 ⟨some "Janet", none⟩ =
        (match updateAuthorById sampleStore 1 ⟨some "Janet", none⟩ with
         | (.ok a, s') => (.created a, s')
         | (.error _, s') => (.serverError, s')) :=
  ⟨(authorPut_validation_branch_unreachable sampleStore ⟨["Invalid value"]⟩ 1
      ⟨some "Janet", none⟩).2 ["Invalid value"] sampleStore,
    (authorPut_validation_branch_unreachable sampleStore ⟨["Invalid value"]⟩ 1
      ⟨some "Janet", none⟩).1⟩
